import Mathlib

/-!
Verification of the xk_bot chat bot (src/xk_bot.py) against its
natural-language specification.

Shallow embedding conventions:
* Timestamps are integers (seconds).  `timedelta(minutes=1)` becomes `60`,
  `timedelta(minutes=3)` becomes `180`.  The two `datetime.now()` calls that
  occur while one inbound message is being handled are modelled as the same
  instant `now`.
* The Python dict `user_data` is modelled as a total function
  `Nat → UserData`; a user absent from the dict is a user mapped to
  `defaultUserData`, which matches the `.get(user_id, default)` accesses in
  the source.  Mutation through the alias returned by `.get` (present user)
  is modelled by an explicit functional update; `is_blocked` only writes in
  its expiry branch, exactly as the source only mutates there.
* The aiogram FSM is modelled as a per-user session map
  `Nat → SessionState`; `state.set_state`/`state.clear` become functional
  updates.
* Outbound `message.answer`/`answer_photo` calls are modelled as abstract
  `Reply` values (the caption, keyboard and photo contents are opaque); the
  list of replies preserves send order.
-/

/-- One user's rate-limiting record (the per-user dict stored in `user_data`,
src/xk_bot.py lines 60 and 72): a list of request timestamps and an optional
block-expiry timestamp. -/
structure UserData where
  requests : List Int
  blocked_until : Option Int
deriving Repr, DecidableEq

/-- The default record `{"requests": [], "blocked_until": None}` used by the
`.get` calls in `is_blocked` and `record_request`. -/
def defaultUserData : UserData := { requests := [], blocked_until := none }

/-- The in-memory store `user_data` (src/xk_bot.py line 38), as a total map
from user id to rate record; absent users read as `defaultUserData`. -/
abbrev Store := Nat → UserData

/-- Functional update of the store at one user id (`user_data[user_id] = data`). -/
def updateStore (store : Store) (uid : Nat) (d : UserData) : Store :=
  fun u => if u = uid then d else store u

/-- Per-user FSM session state: `Idle` is aiogram's default (no state set);
`awaitingPassword` is `ClearCacheStates.waiting_for_password`
(src/xk_bot.py lines 41-42). -/
inductive SessionState where
  | idle
  | awaitingPassword
deriving Repr, DecidableEq

/-- The aiogram FSM storage, one session state per user id. -/
abbrev Sessions := Nat → SessionState

/-- Functional update of the session map at one user id
(`state.set_state(...)` / `state.clear()`). -/
def setSession (ss : Sessions) (uid : Nat) (s : SessionState) : Sessions :=
  fun u => if u = uid then s else ss u

/-- Abstract outbound replies; each constructor stands for one
`message.answer`/`message.answer_photo` call site in src/xk_bot.py. -/
inductive Reply where
  | warning          -- line 85
  | blockNotice      -- line 90
  | promoPhoto       -- line 107, photo with caption and keyboard
  | promoText        -- line 114, text with caption and keyboard
  | passwordPrompt   -- line 122
  | clearSuccess     -- line 129
  | wrongPassword    -- line 131
deriving Repr, DecidableEq

/-- Environment configuration read at startup (src/xk_bot.py lines 20-23).
`os.getenv` yields `none` for an unset variable. -/
structure Config where
  bot_token : Option String
  channel_link : Option String
  photo_url : Option String
  clear_cache_password : Option String

/-- Python truthiness of an optional environment string: `None` and the empty
string are falsy (`if not BOT_TOKEN`, `if PHOTO_URL`). -/
def truthy : Option String → Bool
  | none => false
  | some s => !(s == "")

/-- Startup configuration check (src/xk_bot.py lines 25-30).  A raised
`ValueError` is modelled as `Except.error` carrying the exception message;
the `CLEAR_CACHE_PASSWORD` branch only prints a warning and is not fatal,
so it does not appear as an error case. -/
def startup_check (cfg : Config) : Except String Unit :=
  if !truthy cfg.bot_token then
    Except.error "❌ BOT_TOKEN not found!"
  else if !truthy cfg.channel_link then
    Except.error "❌ CHANNEL_LINK not found"
  else
    Except.ok ()

/-- Rate limiting settings (src/xk_bot.py lines 33-35). -/
def MAX_REQUESTS_PER_MINUTE : Nat := 5

/-- Warning threshold (src/xk_bot.py line 34). -/
def WARNING_THRESHOLD : Nat := 4

/-- Block duration in minutes (src/xk_bot.py line 35). -/
def BLOCK_DURATION_MINUTES : Nat := 3

/-- `is_blocked` (src/xk_bot.py lines 58-66): lazily expires a stale block
(strictly `now > blocked_until`), in which case both the block and the
request history are reset through the dict alias; returns the pair
`(blocked_until is not None, blocked_until)` after the possible reset,
together with the resulting store.  When nothing expires the source performs
no write, so the store is returned unchanged. -/
def is_blocked (store : Store) (uid : Nat) (now : Int) : Bool × Option Int × Store :=
  let data := store uid
  match data.blocked_until with
  | some b =>
      if now > b then
        (false, none, updateStore store uid { requests := [], blocked_until := none })
      else
        (true, some b, store)
  | none => (false, none, store)

/-- `record_request` (src/xk_bot.py lines 68-75): prunes the request history
to timestamps strictly newer than `now` minus one minute, appends `now`, and
stores the record back. -/
def record_request (store : Store) (uid : Nat) (now : Int) : Store :=
  let one_minute_ago := now - 60
  let data := store uid
  let pruned := data.requests.filter (fun t => decide (t > one_minute_ago))
  updateStore store uid { requests := pruned ++ [now], blocked_until := data.blocked_until }

/-- The promotional payload sent by `start`: a photo message when `PHOTO_URL`
is configured, else a text message (src/xk_bot.py lines 106-118). -/
def promoReply (cfg : Config) : Reply :=
  if truthy cfg.photo_url then Reply.promoPhoto else Reply.promoText

/-- The `/start` handler `start` (src/xk_bot.py lines 77-118): records the
request, emits a warning when the fresh count lies in
`(WARNING_THRESHOLD, MAX_REQUESTS_PER_MINUTE]`, and either blocks the user
for `BLOCK_DURATION_MINUTES` (count above the maximum; no payload) or sends
the promotional payload. -/
def start (cfg : Config) (store : Store) (uid : Nat) (now : Int) : Store × List Reply :=
  let store1 := record_request store uid now
  let data := store1 uid
  let request_count := data.requests.length
  let warnOut : List Reply :=
    if request_count > WARNING_THRESHOLD ∧ request_count ≤ MAX_REQUESTS_PER_MINUTE then
      [Reply.warning]
    else []
  if request_count > MAX_REQUESTS_PER_MINUTE then
    let block_until := now + 60 * (BLOCK_DURATION_MINUTES : Int)
    (updateStore store1 uid { data with blocked_until := some block_until },
     warnOut ++ [Reply.blockNotice])
  else
    (store1, warnOut ++ [promoReply cfg])

/-- The `/clearcache` handler `cmd_clearcache` (src/xk_bot.py lines 121-123):
unconditionally sends the password prompt and moves the session to
`waiting_for_password`.  Note that the source never consults
`CLEAR_CACHE_PASSWORD` here. -/
def cmd_clearcache (sessions : Sessions) (uid : Nat) : Sessions × List Reply :=
  (setSession sessions uid SessionState.awaitingPassword, [Reply.passwordPrompt])

/-- The password-attempt handler `process_clear_password`
(src/xk_bot.py lines 125-133): if `message.text == CLEAR_CACHE_PASSWORD`
(in Python a string equals `None` never, so this requires the password to be
configured and equal to the text) the whole store is replaced by the empty
dict and success is reported, otherwise failure is reported; either way the
session is cleared back to idle. -/
def process_clear_password (cfg : Config) (store : Store) (sessions : Sessions)
    (uid : Nat) (text : String) : Store × Sessions × List Reply :=
  if cfg.clear_cache_password = some text then
    (fun _ => defaultUserData, setSession sessions uid SessionState.idle, [Reply.clearSuccess])
  else
    (store, setSession sessions uid SessionState.idle, [Reply.wrongPassword])

/-- First whitespace-separated token of a message text (as characters), used
for command matching. -/
def firstWordChars : List Char → List Char
  | [] => []
  | c :: cs => if c = ' ' then [] else c :: firstWordChars cs

/-- Whether a message text invokes the bot command `cmd`: its first
whitespace-separated token is `"/" ++ cmd`.  This models aiogram's
`CommandStart()` / `Command("clearcache")` filters on text messages
(bot-name mentions are not modelled; every message in the claims is a bare
command or plain text). -/
def isCommandMsg (cmd : String) (text : String) : Bool :=
  firstWordChars text.data == ("/" ++ cmd).data

/-- Whole bot state: the rate-tracking store plus the FSM sessions. -/
structure BotState where
  user_data : Store
  sessions : Sessions

/-- Initial bot state: empty store, every session idle. -/
def initialState : BotState :=
  { user_data := fun _ => defaultUserData, sessions := fun _ => SessionState.idle }

/-- One inbound text message through the middleware and the registered
handlers (src/xk_bot.py lines 44-56 and 139-144), following aiogram 3
dispatch semantics: `AntiSpamMiddleware` runs first and silently drops the
message of a blocked user (the lazy unblock performed by `is_blocked`
persists); otherwise handlers are tried in registration order — `start`
under `CommandStart()`, then `cmd_clearcache` under `Command("clearcache")`,
then `process_clear_password` under the `waiting_for_password` state filter —
and the first handler whose filters pass handles the message.  A handler
registered without a state filter matches in any FSM state.  A message
matching no handler is ignored. -/
def dispatchMessage (cfg : Config) (st : BotState) (uid : Nat) (text : String)
    (now : Int) : BotState × List Reply :=
  let r := is_blocked st.user_data uid now
  let store1 := r.2.2
  if r.1 then
    ({ st with user_data := store1 }, [])
  else if isCommandMsg "start" text then
    let s := start cfg store1 uid now
    ({ user_data := s.1, sessions := st.sessions }, s.2)
  else if isCommandMsg "clearcache" text then
    let c := cmd_clearcache st.sessions uid
    ({ user_data := store1, sessions := c.1 }, c.2)
  else if st.sessions uid = SessionState.awaitingPassword then
    let p := process_clear_password cfg store1 st.sessions uid text
    ({ user_data := p.1, sessions := p.2.1 }, p.2.2)
  else
    ({ st with user_data := store1 }, [])

/-- Run one fixed message text repeatedly at the given timestamps, collecting
each turn's replies. -/
def runMessages (cfg : Config) (uid : Nat) (text : String) :
    BotState → List Int → BotState × List (List Reply)
  | st, [] => (st, [])
  | st, now :: rest =>
      let r := dispatchMessage cfg st uid text now
      let rec' := runMessages cfg uid text r.1 rest
      (rec'.1, r.2 :: rec'.2)

/-! ### Helper lemmas -/

theorem updateStore_self (store : Store) (uid : Nat) (d : UserData) :
    updateStore store uid d uid = d := by
  simp [updateStore]

theorem updateStore_updateStore (store : Store) (uid : Nat) (d1 d2 : UserData) :
    updateStore (updateStore store uid d1) uid d2 = updateStore store uid d2 := by
  funext u
  by_cases h : u = uid <;> simp [updateStore, h]

theorem setSession_self (ss : Sessions) (uid : Nat) (s : SessionState) :
    setSession ss uid s uid = s := by
  simp [setSession]

theorem is_blocked_of_none (store : Store) (uid : Nat) (now : Int)
    (h : (store uid).blocked_until = none) :
    is_blocked store uid now = (false, none, store) := by
  simp [is_blocked, h]

theorem is_blocked_of_active (store : Store) (uid : Nat) (now b : Int)
    (h : (store uid).blocked_until = some b) (hle : now ≤ b) :
    is_blocked store uid now = (true, some b, store) := by
  simp [is_blocked, h]
  omega

theorem is_blocked_of_expired (store : Store) (uid : Nat) (now b : Int)
    (h : (store uid).blocked_until = some b) (hgt : now > b) :
    is_blocked store uid now =
      (false, none, updateStore store uid { requests := [], blocked_until := none }) := by
  simp [is_blocked, h]
  omega

theorem record_request_keep (store : Store) (uid : Nat) (now : Int)
    (hkeep : ∀ x ∈ (store uid).requests, now - 60 < x) :
    record_request store uid now =
      updateStore store uid
        { requests := (store uid).requests ++ [now],
          blocked_until := (store uid).blocked_until } := by
  have hfil : (store uid).requests.filter (fun t => decide (t > now - 60)) =
      (store uid).requests :=
    List.filter_eq_self.mpr (fun a ha => decide_eq_true (hkeep a ha))
  simp only [record_request]
  rw [hfil]

theorem dispatch_start_normal (cfg : Config) (st : BotState) (uid : Nat) (now : Int)
    (hbu : (st.user_data uid).blocked_until = none)
    (hkeep : ∀ x ∈ (st.user_data uid).requests, now - 60 < x)
    (hcnt : (st.user_data uid).requests.length + 1 ≤ WARNING_THRESHOLD) :
    dispatchMessage cfg st uid "/start" now =
      ({ user_data := updateStore st.user_data uid
           { requests := (st.user_data uid).requests ++ [now], blocked_until := none },
         sessions := st.sessions }, [promoReply cfg]) := by
  have hWM : WARNING_THRESHOLD ≤ MAX_REQUESTS_PER_MINUTE := by decide
  have hcmd : isCommandMsg "start" "/start" = true := by decide
  have hrec := record_request_keep st.user_data uid now hkeep
  simp only [dispatchMessage, is_blocked_of_none st.user_data uid now hbu, hcmd,
    Bool.false_eq_true, if_false, if_true, start, hrec, updateStore_self, hbu,
    List.length_append, List.length_cons, List.length_nil]
  rw [if_neg (show ¬((st.user_data uid).requests.length + 1 > MAX_REQUESTS_PER_MINUTE)
        by omega)]
  rw [if_neg (show ¬((st.user_data uid).requests.length + 1 > WARNING_THRESHOLD ∧
        (st.user_data uid).requests.length + 1 ≤ MAX_REQUESTS_PER_MINUTE) by omega)]
  simp

theorem dispatch_start_warning (cfg : Config) (st : BotState) (uid : Nat) (now : Int)
    (hbu : (st.user_data uid).blocked_until = none)
    (hkeep : ∀ x ∈ (st.user_data uid).requests, now - 60 < x)
    (hcnt : (st.user_data uid).requests.length + 1 = MAX_REQUESTS_PER_MINUTE) :
    dispatchMessage cfg st uid "/start" now =
      ({ user_data := updateStore st.user_data uid
           { requests := (st.user_data uid).requests ++ [now], blocked_until := none },
         sessions := st.sessions }, [Reply.warning, promoReply cfg]) := by
  have hWM : WARNING_THRESHOLD < MAX_REQUESTS_PER_MINUTE := by decide
  have hcmd : isCommandMsg "start" "/start" = true := by decide
  have hrec := record_request_keep st.user_data uid now hkeep
  simp only [dispatchMessage, is_blocked_of_none st.user_data uid now hbu, hcmd,
    Bool.false_eq_true, if_false, if_true, start, hrec, updateStore_self, hbu,
    List.length_append, List.length_cons, List.length_nil]
  rw [if_neg (show ¬((st.user_data uid).requests.length + 1 > MAX_REQUESTS_PER_MINUTE)
        by omega)]
  rw [if_pos (show (st.user_data uid).requests.length + 1 > WARNING_THRESHOLD ∧
        (st.user_data uid).requests.length + 1 ≤ MAX_REQUESTS_PER_MINUTE by omega)]
  simp

theorem dispatch_start_block (cfg : Config) (st : BotState) (uid : Nat) (now : Int)
    (hbu : (st.user_data uid).blocked_until = none)
    (hkeep : ∀ x ∈ (st.user_data uid).requests, now - 60 < x)
    (hcnt : (st.user_data uid).requests.length + 1 > MAX_REQUESTS_PER_MINUTE) :
    dispatchMessage cfg st uid "/start" now =
      ({ user_data := updateStore st.user_data uid
           { requests := (st.user_data uid).requests ++ [now],
             blocked_until := some (now + 60 * (BLOCK_DURATION_MINUTES : Int)) },
         sessions := st.sessions }, [Reply.blockNotice]) := by
  have hcmd : isCommandMsg "start" "/start" = true := by decide
  have hrec := record_request_keep st.user_data uid now hkeep
  simp only [dispatchMessage, is_blocked_of_none st.user_data uid now hbu, hcmd,
    Bool.false_eq_true, if_false, if_true, start, hrec, updateStore_self, hbu,
    List.length_append, List.length_cons, List.length_nil]
  rw [if_pos (show (st.user_data uid).requests.length + 1 > MAX_REQUESTS_PER_MINUTE
        from hcnt)]
  rw [if_neg (show ¬((st.user_data uid).requests.length + 1 > WARNING_THRESHOLD ∧
        (st.user_data uid).requests.length + 1 ≤ MAX_REQUESTS_PER_MINUTE) by omega)]
  rw [updateStore_updateStore]
  simp

/-! ### Concrete fixtures used by witnesses and counterexamples -/

/-- A configuration with both required settings present and no
`CLEAR_CACHE_PASSWORD`. -/
def cfgNoPassword : Config :=
  { bot_token := some "token", channel_link := some "https://t.me/pythonmasters",
    photo_url := none, clear_cache_password := none }

/-- A configuration with both required settings present and
`CLEAR_CACHE_PASSWORD` set to `"secret"`. -/
def cfgWithPassword : Config :=
  { bot_token := some "token", channel_link := some "https://t.me/pythonmasters",
    photo_url := none, clear_cache_password := some "secret" }

/-- A bot state in which user 1 has used up the window and is blocked
until time 185, and every session is idle. -/
def blockedStateOne : BotState :=
  { user_data := updateStore (fun _ => defaultUserData) 1
      { requests := [0, 1, 2, 3, 4, 5], blocked_until := some 185 },
    sessions := fun _ => SessionState.idle }

/-- A bot state with an empty store in which user 1 is awaiting the
cache-clear password. -/
def awaitingStateOne : BotState :=
  { user_data := fun _ => defaultUserData,
    sessions := setSession (fun _ => SessionState.idle) 1 SessionState.awaitingPassword }

/-! ### Claims -/

/-- C4: for every user whose `blocked_until` is set and not yet expired
(`now ≤ blocked_until`), every inbound message is silently dropped before
dispatch: no reply of any kind is sent and the whole bot state — sessions
included — is left unchanged, so a blocked user can neither start nor
advance a password flow. -/
theorem C4_blocked_user_silently_dropped (cfg : Config) (st : BotState) (uid : Nat)
    (text : String) (now b : Int)
    (hb : (st.user_data uid).blocked_until = some b) (hle : now ≤ b) :
    dispatchMessage cfg st uid text now = (st, []) := by
  simp [dispatchMessage, is_blocked_of_active st.user_data uid now b hb hle]

theorem C4_blocked_user_silently_dropped_witness :
    (blockedStateOne.user_data 1).blocked_until = some 185 ∧ (100 : Int) ≤ 185 ∧
    dispatchMessage cfgWithPassword blockedStateOne 1 "/clearcache" 100 =
      (blockedStateOne, []) :=
  ⟨by decide, by decide,
   C4_blocked_user_silently_dropped cfgWithPassword blockedStateOne 1 "/clearcache"
     100 185 (by decide) (by decide)⟩

/-- C6: recording a request prunes the stored history to timestamps strictly
within the trailing 60-second window before appending: with requests at `t`
and `t + 30`, recording at `t + 70` yields the two active entries
`t + 30` and `t + 70` (the entry at `t` has expired), not three. -/
theorem C6_sliding_window_prune (store : Store) (uid : Nat) (t : Int)
    (hreq : (store uid).requests = [t, t + 30]) :
    ((record_request store uid (t + 70)) uid).requests = [t + 30, t + 70] ∧
    ((record_request store uid (t + 70)) uid).requests.length = 2 := by
  have h1 : ¬(t > t + 70 - 60) := by omega
  have h2 : t + 30 > t + 70 - 60 := by omega
  simp [record_request, updateStore_self, hreq, List.filter, h1, h2]

theorem C6_sliding_window_prune_witness :
    ((updateStore (fun _ => defaultUserData) 7
        { requests := [100, 130], blocked_until := none }) 7).requests =
      [100, 100 + 30] ∧
    ((record_request (updateStore (fun _ => defaultUserData) 7
        { requests := [100, 130], blocked_until := none }) 7 (100 + 70)) 7).requests =
      [100 + 30, 100 + 70] ∧
    ((record_request (updateStore (fun _ => defaultUserData) 7
        { requests := [100, 130], blocked_until := none }) 7 (100 + 70)) 7).requests.length = 2 := by
  refine ⟨by decide, ?_, ?_⟩
  · exact (C6_sliding_window_prune _ 7 100 (by decide)).1
  · exact (C6_sliding_window_prune _ 7 100 (by decide)).2

/-- C7: a successful password attempt (text equal to the configured password)
clears the rate state of all users — afterwards every user's record is the
default one (empty history, no block) — reports success, and returns the
caller's session to idle. -/
theorem C7_success_clears_all_users (cfg : Config) (store : Store)
    (sessions : Sessions) (uid : Nat) (text : String)
    (hpw : cfg.clear_cache_password = some text) :
    (∀ u, (process_clear_password cfg store sessions uid text).1 u = defaultUserData) ∧
    (process_clear_password cfg store sessions uid text).2.2 = [Reply.clearSuccess] ∧
    (process_clear_password cfg store sessions uid text).2.1 uid = SessionState.idle := by
  simp [process_clear_password, hpw, setSession_self]

theorem C7_success_clears_all_users_witness :
    cfgWithPassword.clear_cache_password = some "secret" ∧
    (process_clear_password cfgWithPassword blockedStateOne.user_data
       (fun _ => SessionState.awaitingPassword) 1 "secret").1 1 = defaultUserData ∧
    (process_clear_password cfgWithPassword blockedStateOne.user_data
       (fun _ => SessionState.awaitingPassword) 1 "secret").1 2 = defaultUserData ∧
    (process_clear_password cfgWithPassword blockedStateOne.user_data
       (fun _ => SessionState.awaitingPassword) 1 "secret").2.2 = [Reply.clearSuccess] :=
  ⟨rfl,
   (C7_success_clears_all_users cfgWithPassword blockedStateOne.user_data
      (fun _ => SessionState.awaitingPassword) 1 "secret" rfl).1 1,
   (C7_success_clears_all_users cfgWithPassword blockedStateOne.user_data
      (fun _ => SessionState.awaitingPassword) 1 "secret" rfl).1 2,
   (C7_success_clears_all_users cfgWithPassword blockedStateOne.user_data
      (fun _ => SessionState.awaitingPassword) 1 "secret" rfl).2.1⟩

/-- C8: a wrong password attempt (text different from the configured
password) reports failure, returns the caller's session to idle, and leaves
the entire rate-tracker store — the caller's own record included —
unchanged. -/
theorem C8_wrong_password_keeps_store (cfg : Config) (store : Store)
    (sessions : Sessions) (uid : Nat) (text p : String)
    (hp : cfg.clear_cache_password = some p) (hne : text ≠ p) :
    process_clear_password cfg store sessions uid text =
      (store, setSession sessions uid SessionState.idle, [Reply.wrongPassword]) ∧
    (process_clear_password cfg store sessions uid text).2.1 uid =
      SessionState.idle := by
  have hcond : ¬(cfg.clear_cache_password = some text) := by
    rw [hp]
    intro h
    exact hne (Option.some.inj h).symm
  simp [process_clear_password, hcond, setSession_self]

theorem C8_wrong_password_keeps_store_witness :
    cfgWithPassword.clear_cache_password = some "secret" ∧ "wrong" ≠ "secret" ∧
    process_clear_password cfgWithPassword blockedStateOne.user_data
      (fun _ => SessionState.awaitingPassword) 1 "wrong" =
      (blockedStateOne.user_data,
       setSession (fun _ => SessionState.awaitingPassword) 1 SessionState.idle,
       [Reply.wrongPassword]) :=
  ⟨rfl, by decide,
   (C8_wrong_password_keeps_store cfgWithPassword blockedStateOne.user_data
      (fun _ => SessionState.awaitingPassword) 1 "wrong" "secret" rfl (by decide)).1⟩

/-- C9: with `CLEAR_CACHE_PASSWORD` unset, the password-check handler replies
with the failure message for every text message (no string equals Python's
`None`), so the branch that clears the store is unreachable and the store is
returned untouched — while the privileged-command handler still sends the
password prompt. -/
theorem C9_none_password_always_fails (cfg : Config) (store : Store)
    (sessions : Sessions) (uid : Nat) (text : String)
    (hpw : cfg.clear_cache_password = none) :
    process_clear_password cfg store sessions uid text =
      (store, setSession sessions uid SessionState.idle, [Reply.wrongPassword]) ∧
    (cmd_clearcache sessions uid).2 = [Reply.passwordPrompt] := by
  simp [process_clear_password, hpw, cmd_clearcache]

theorem C9_none_password_always_fails_witness :
    cfgNoPassword.clear_cache_password = none ∧
    process_clear_password cfgNoPassword blockedStateOne.user_data
      (fun _ => SessionState.awaitingPassword) 1 "anything" =
      (blockedStateOne.user_data,
       setSession (fun _ => SessionState.awaitingPassword) 1 SessionState.idle,
       [Reply.wrongPassword]) :=
  ⟨rfl,
   (C9_none_password_always_fails cfgNoPassword blockedStateOne.user_data
      (fun _ => SessionState.awaitingPassword) 1 "anything" rfl).1⟩

/-- C10: startup aborts with a descriptive failure when the bot credential or
the channel link is absent (Python-falsy), in that order; when both are
present, startup succeeds whether or not the privileged-operation password is
configured. -/
theorem C10_startup_requires_token_and_channel (cfg : Config) :
    (truthy cfg.bot_token = false →
      startup_check cfg = Except.error "❌ BOT_TOKEN not found!") ∧
    (truthy cfg.bot_token = true → truthy cfg.channel_link = false →
      startup_check cfg = Except.error "❌ CHANNEL_LINK not found") ∧
    (truthy cfg.bot_token = true → truthy cfg.channel_link = true →
      startup_check cfg = Except.ok ()) := by
  refine ⟨fun h => ?_, fun h1 h2 => ?_, fun h1 h2 => ?_⟩ <;>
    simp [startup_check, *]

theorem C10_startup_requires_token_and_channel_witness :
    startup_check { bot_token := none, channel_link := some "https://t.me/x",
                    photo_url := none, clear_cache_password := some "secret" } =
      Except.error "❌ BOT_TOKEN not found!" ∧
    startup_check { bot_token := some "token", channel_link := none,
                    photo_url := none, clear_cache_password := some "secret" } =
      Except.error "❌ CHANNEL_LINK not found" ∧
    startup_check cfgNoPassword = Except.ok () :=
  ⟨(C10_startup_requires_token_and_channel _).1 rfl,
   (C10_startup_requires_token_and_channel _).2.1 (by decide) rfl,
   (C10_startup_requires_token_and_channel cfgNoPassword).2.2 (by decide) (by decide)⟩

/-- C1 (evaluation at the failing input): with `CLEAR_CACHE_PASSWORD` unset,
an inbound `/clearcache` from a non-blocked user still receives the password
prompt and the session still enters the awaiting-password state —
`cmd_clearcache` never consults the configuration, contradicting the claim
(and the startup message announcing the command disabled); only the
"nothing is cleared" part holds (see the C9 theorem). -/
theorem C1_clearcache_still_prompts_without_password :
    (dispatchMessage cfgNoPassword initialState 1 "/clearcache" 0).2 =
      [Reply.passwordPrompt] ∧
    (dispatchMessage cfgNoPassword initialState 1 "/clearcache" 0).1.sessions 1 =
      SessionState.awaitingPassword := by
  decide

/-- C2 (counterexample): user 1's session awaits the cache-clear password and
the user is not blocked, yet the inbound greeting command `/start` is handled
by the greeting handler — the promotional payload is sent — and the session
stays `awaitingPassword`, instead of the message being treated as the single
password attempt with the session returned to idle. -/
theorem C2_counterexample_start_wins :
    (dispatchMessage cfgWithPassword awaitingStateOne 1 "/start" 0).2 =
      [Reply.promoText] ∧
    (dispatchMessage cfgWithPassword awaitingStateOne 1 "/start" 0).1.sessions 1 =
      SessionState.awaitingPassword := by
  decide

/-- C2 (amended): for a non-blocked user whose session awaits the cache-clear
password, the next inbound message is handled as the single password attempt
— delegated to `process_clear_password`, with the session returned to idle —
provided it is neither the greeting command nor the privileged command; those
two are captured first by their own handlers, which are registered before the
state handler and carry no state filter. -/
theorem C2_amended_password_attempt_route (cfg : Config) (st : BotState)
    (uid : Nat) (text : String) (now : Int)
    (hsess : st.sessions uid = SessionState.awaitingPassword)
    (hnb : (is_blocked st.user_data uid now).1 = false)
    (hns : isCommandMsg "start" text = false)
    (hnc : isCommandMsg "clearcache" text = false) :
    dispatchMessage cfg st uid text now =
      ({ user_data := (process_clear_password cfg
            (is_blocked st.user_data uid now).2.2 st.sessions uid text).1,
         sessions := (process_clear_password cfg
            (is_blocked st.user_data uid now).2.2 st.sessions uid text).2.1 },
       (process_clear_password cfg
          (is_blocked st.user_data uid now).2.2 st.sessions uid text).2.2) ∧
    (dispatchMessage cfg st uid text now).1.sessions uid = SessionState.idle := by
  have hroute : dispatchMessage cfg st uid text now =
      ({ user_data := (process_clear_password cfg
            (is_blocked st.user_data uid now).2.2 st.sessions uid text).1,
         sessions := (process_clear_password cfg
            (is_blocked st.user_data uid now).2.2 st.sessions uid text).2.1 },
       (process_clear_password cfg
          (is_blocked st.user_data uid now).2.2 st.sessions uid text).2.2) := by
    simp only [dispatchMessage, hnb, hns, hnc, hsess, Bool.false_eq_true, if_false,
      if_true]
  refine ⟨hroute, ?_⟩
  rw [hroute]
  by_cases h : cfg.clear_cache_password = some text <;>
    simp [process_clear_password, h, setSession_self]

theorem C2_amended_password_attempt_route_witness :
    awaitingStateOne.sessions 1 = SessionState.awaitingPassword ∧
    (is_blocked awaitingStateOne.user_data 1 0).1 = false ∧
    isCommandMsg "start" "hello" = false ∧
    isCommandMsg "clearcache" "hello" = false ∧
    (dispatchMessage cfgWithPassword awaitingStateOne 1 "hello" 0).1.sessions 1 =
      SessionState.idle :=
  ⟨by decide, by decide, by decide, by decide,
   (C2_amended_password_attempt_route cfgWithPassword awaitingStateOne 1 "hello" 0
      (by decide) (by decide) (by decide) (by decide)).2⟩

/-- C5: a pending block is still in force at `now` exactly equal to
`blocked_until`; at any `now` strictly past it, the same `is_blocked` lookup
clears the block and resets the history together, and a greeting dispatched
at such a `now` goes through as request #1 of a fresh window: the
promotional payload is sent and the user ends up with history `[now]` and no
block. -/
theorem C5_block_lifts_strictly_after (cfg : Config) (st : BotState) (uid : Nat)
    (b now : Int) (hb : (st.user_data uid).blocked_until = some b)
    (hgt : now > b) :
    (is_blocked st.user_data uid b).1 = true ∧
    is_blocked st.user_data uid now =
      (false, none,
       updateStore st.user_data uid { requests := [], blocked_until := none }) ∧
    (dispatchMessage cfg st uid "/start" now).2 = [promoReply cfg] ∧
    (dispatchMessage cfg st uid "/start" now).1.user_data uid =
      { requests := [now], blocked_until := none } := by
  have hexp := is_blocked_of_expired st.user_data uid now b hb hgt
  have hcmd : isCommandMsg "start" "/start" = true := by decide
  have hst1 : (updateStore st.user_data uid
      { requests := [], blocked_until := none }) uid =
      { requests := [], blocked_until := none } := updateStore_self _ _ _
  have hrec := record_request_keep
    (updateStore st.user_data uid { requests := [], blocked_until := none })
    uid now (by rw [hst1]; intro x hx; simp at hx)
  rw [hst1] at hrec
  have hd : dispatchMessage cfg st uid "/start" now =
      ({ user_data := updateStore st.user_data uid
           { requests := [now], blocked_until := none },
         sessions := st.sessions }, [promoReply cfg]) := by
    simp only [dispatchMessage, hexp, hcmd, Bool.false_eq_true, if_false, if_true,
      start, hrec, updateStore_self, updateStore_updateStore, List.nil_append,
      List.length_cons, List.length_nil, Nat.zero_add]
    rw [if_neg (show ¬(1 > MAX_REQUESTS_PER_MINUTE) by decide)]
    rw [if_neg (show ¬(1 > WARNING_THRESHOLD ∧ 1 ≤ MAX_REQUESTS_PER_MINUTE)
          by decide)]
    simp
  refine ⟨?_, hexp, ?_, ?_⟩
  · rw [is_blocked_of_active st.user_data uid b b hb le_rfl]
  · rw [hd]
  · rw [hd]
    exact updateStore_self _ _ _

theorem C5_block_lifts_strictly_after_witness :
    (blockedStateOne.user_data 1).blocked_until = some 185 ∧ (186 : Int) > 185 ∧
    (is_blocked blockedStateOne.user_data 1 185).1 = true ∧
    (dispatchMessage cfgWithPassword blockedStateOne 1 "/start" 186).2 =
      [promoReply cfgWithPassword] ∧
    (dispatchMessage cfgWithPassword blockedStateOne 1 "/start" 186).1.user_data 1 =
      { requests := [186], blocked_until := none } :=
  ⟨by decide, by decide,
   (C5_block_lifts_strictly_after cfgWithPassword blockedStateOne 1 185 186
      (by decide) (by decide)).1,
   (C5_block_lifts_strictly_after cfgWithPassword blockedStateOne 1 185 186
      (by decide) (by decide)).2.2.1,
   (C5_block_lifts_strictly_after cfgWithPassword blockedStateOne 1 185 186
      (by decide) (by decide)).2.2.2⟩

/-- C3: starting from an empty history, six greetings from the same user at
non-decreasing times all within one 60-second window produce: no warning and
the promotional payload for requests 1-4, a warning plus the payload for
request 5, and for request 6 a block notice with `blocked_until` set to that
request's time plus `BLOCK_DURATION_MINUTES` and no payload. -/
theorem C3_rate_limit_scenario (cfg : Config) (uid : Nat) (t1 t2 t3 t4 t5 t6 : Int)
    (h12 : t1 ≤ t2) (h23 : t2 ≤ t3) (h34 : t3 ≤ t4) (h45 : t4 ≤ t5) (h56 : t5 ≤ t6)
    (hwin : t6 < t1 + 60) :
    (runMessages cfg uid "/start" initialState [t1, t2, t3, t4, t5, t6]).2 =
      [[promoReply cfg], [promoReply cfg], [promoReply cfg], [promoReply cfg],
       [Reply.warning, promoReply cfg], [Reply.blockNotice]] ∧
    (runMessages cfg uid "/start" initialState [t1, t2, t3, t4, t5, t6]).1.user_data uid =
      { requests := [t1, t2, t3, t4, t5, t6],
        blocked_until := some (t6 + 60 * (BLOCK_DURATION_MINUTES : Int)) } := by
  have e1 : dispatchMessage cfg initialState uid "/start" t1 =
      ({ user_data := updateStore initialState.user_data uid
           { requests := [t1], blocked_until := none },
         sessions := initialState.sessions }, [promoReply cfg]) := by
    have h := dispatch_start_normal cfg initialState uid t1 rfl
      (by intro x hx; simp [initialState, defaultUserData] at hx)
      (by simp [initialState, defaultUserData, WARNING_THRESHOLD])
    simpa [initialState, defaultUserData] using h
  have e2 : dispatchMessage cfg
      { user_data := updateStore initialState.user_data uid
          { requests := [t1], blocked_until := none },
        sessions := initialState.sessions } uid "/start" t2 =
      ({ user_data := updateStore initialState.user_data uid
           { requests := [t1, t2], blocked_until := none },
         sessions := initialState.sessions }, [promoReply cfg]) := by
    have h := dispatch_start_normal cfg
      { user_data := updateStore initialState.user_data uid
          { requests := [t1], blocked_until := none },
        sessions := initialState.sessions } uid t2
      (by simp [updateStore_self])
      (by intro x hx; simp [updateStore_self] at hx; subst hx; omega)
      (by simp [updateStore_self, WARNING_THRESHOLD])
    simpa [updateStore_self, updateStore_updateStore] using h
  have e3 : dispatchMessage cfg
      { user_data := updateStore initialState.user_data uid
          { requests := [t1, t2], blocked_until := none },
        sessions := initialState.sessions } uid "/start" t3 =
      ({ user_data := updateStore initialState.user_data uid
           { requests := [t1, t2, t3], blocked_until := none },
         sessions := initialState.sessions }, [promoReply cfg]) := by
    have h := dispatch_start_normal cfg
      { user_data := updateStore initialState.user_data uid
          { requests := [t1, t2], blocked_until := none },
        sessions := initialState.sessions } uid t3
      (by simp [updateStore_self])
      (by intro x hx; simp [updateStore_self] at hx; rcases hx with rfl | rfl <;> omega)
      (by simp [updateStore_self, WARNING_THRESHOLD])
    simpa [updateStore_self, updateStore_updateStore] using h
  have e4 : dispatchMessage cfg
      { user_data := updateStore initialState.user_data uid
          { requests := [t1, t2, t3], blocked_until := none },
        sessions := initialState.sessions } uid "/start" t4 =
      ({ user_data := updateStore initialState.user_data uid
           { requests := [t1, t2, t3, t4], blocked_until := none },
         sessions := initialState.sessions }, [promoReply cfg]) := by
    have h := dispatch_start_normal cfg
      { user_data := updateStore initialState.user_data uid
          { requests := [t1, t2, t3], blocked_until := none },
        sessions := initialState.sessions } uid t4
      (by simp [updateStore_self])
      (by intro x hx; simp [updateStore_self] at hx
          rcases hx with rfl | rfl | rfl <;> omega)
      (by simp [updateStore_self, WARNING_THRESHOLD])
    simpa [updateStore_self, updateStore_updateStore] using h
  have e5 : dispatchMessage cfg
      { user_data := updateStore initialState.user_data uid
          { requests := [t1, t2, t3, t4], blocked_until := none },
        sessions := initialState.sessions } uid "/start" t5 =
      ({ user_data := updateStore initialState.user_data uid
           { requests := [t1, t2, t3, t4, t5], blocked_until := none },
         sessions := initialState.sessions }, [Reply.warning, promoReply cfg]) := by
    have h := dispatch_start_warning cfg
      { user_data := updateStore initialState.user_data uid
          { requests := [t1, t2, t3, t4], blocked_until := none },
        sessions := initialState.sessions } uid t5
      (by simp [updateStore_self])
      (by intro x hx; simp [updateStore_self] at hx
          rcases hx with rfl | rfl | rfl | rfl <;> omega)
      (by simp [updateStore_self, MAX_REQUESTS_PER_MINUTE])
    simpa [updateStore_self, updateStore_updateStore] using h
  have e6 : dispatchMessage cfg
      { user_data := updateStore initialState.user_data uid
          { requests := [t1, t2, t3, t4, t5], blocked_until := none },
        sessions := initialState.sessions } uid "/start" t6 =
      ({ user_data := updateStore initialState.user_data uid
           { requests := [t1, t2, t3, t4, t5, t6],
             blocked_until := some (t6 + 60 * (BLOCK_DURATION_MINUTES : Int)) },
         sessions := initialState.sessions }, [Reply.blockNotice]) := by
    have h := dispatch_start_block cfg
      { user_data := updateStore initialState.user_data uid
          { requests := [t1, t2, t3, t4, t5], blocked_until := none },
        sessions := initialState.sessions } uid t6
      (by simp [updateStore_self])
      (by intro x hx; simp [updateStore_self] at hx
          rcases hx with rfl | rfl | rfl | rfl | rfl <;> omega)
      (by simp [updateStore_self, MAX_REQUESTS_PER_MINUTE])
    simpa [updateStore_self, updateStore_updateStore] using h
  have hrun : runMessages cfg uid "/start" initialState [t1, t2, t3, t4, t5, t6] =
      ({ user_data := updateStore initialState.user_data uid
           { requests := [t1, t2, t3, t4, t5, t6],
             blocked_until := some (t6 + 60 * (BLOCK_DURATION_MINUTES : Int)) },
         sessions := initialState.sessions },
       [[promoReply cfg], [promoReply cfg], [promoReply cfg], [promoReply cfg],
        [Reply.warning, promoReply cfg], [Reply.blockNotice]]) := by
    simp only [runMessages, e1, e2, e3, e4, e5, e6]
  refine ⟨by rw [hrun], ?_⟩
  rw [hrun]
  simp [updateStore_self]

theorem C3_rate_limit_scenario_witness :
    (0 : Int) ≤ 1 ∧ (5 : Int) < 0 + 60 ∧
    (runMessages cfgWithPassword 9 "/start" initialState [0, 1, 2, 3, 4, 5]).2 =
      [[promoReply cfgWithPassword], [promoReply cfgWithPassword],
       [promoReply cfgWithPassword], [promoReply cfgWithPassword],
       [Reply.warning, promoReply cfgWithPassword], [Reply.blockNotice]] ∧
    (runMessages cfgWithPassword 9 "/start" initialState [0, 1, 2, 3, 4, 5]).1.user_data 9 =
      { requests := [0, 1, 2, 3, 4, 5],
        blocked_until := some (5 + 60 * (BLOCK_DURATION_MINUTES : Int)) } :=
  ⟨by decide, by decide,
   (C3_rate_limit_scenario cfgWithPassword 9 0 1 2 3 4 5 (by decide) (by decide)
      (by decide) (by decide) (by decide) (by decide)).1,
   (C3_rate_limit_scenario cfgWithPassword 9 0 1 2 3 4 5 (by decide) (by decide)
      (by decide) (by decide) (by decide) (by decide)).2⟩
